import Mathlib

/-!
Shallow embedding of the star-registry blockchain (`src/blockchain.js`).

The repository ships a single source file, `blockchain.js`; the `Block` class it
requires (`block.js`) is not part of the sources, so the Block constructor,
`validate()` and `getBData()` are modelled from the specification and marked as
such in their doc comments.  External collaborators are modelled as the spec
directs: the digest capability is an ideal (injective) deterministic digest, the
signature capability is an explicit `verify` parameter that may either return a
boolean or fail, and the clock is an explicit `now` parameter in seconds.

JavaScript promise semantics matter for two methods whose executors resolve
before their queued microtask continuations run (`validateChain` and
`getStarsByWalletAddress`); those are embedded as pairs: the value observable at
resolution time together with the state of the shared array or log after the
queued continuations have all executed (they are queued, and hence run, in chain
order, because each underlying promise is already fulfilled when `.then`
attaches).
-/

namespace StarChain

/-- The decoded body (payload) of a block: either a plain data object such as the
genesis `\x7bdata: 'Genesis Block'\x7d`, or a star-claim object
`\x7baddress, message, signature, star\x7d`. -/
inductive Body where
  | dataOnly (data : String) : Body
  | claim (address message signature star : String) : Body
deriving DecidableEq, Repr

/-- Digest tokens.  `nullTok` models the JavaScript `null` stored in the `hash`
and `previousBlockHash` fields before they are assigned.  `digest` models the
spec's ideal deterministic, collision-resistant digest capability (§6) applied to
`JSON.stringify` of a block: one token per serialized content, injectively. -/
inductive HashTok where
  | nullTok : HashTok
  | digest (height : Int) (time : Nat) (prevHash : HashTok) (body : Body)
      (hashField : HashTok) : HashTok
deriving DecidableEq, Repr

/-- A block as stored in the chain.  `height` is a JavaScript number (the chain
height starts at -1, so heights are integers); `time` is seconds since epoch;
`previousBlockHash` and `hash` hold `nullTok` until assigned. -/
structure Block where
  height : Int
  time : Nat
  previousBlockHash : HashTok
  body : Body
  hash : HashTok
deriving DecidableEq, Repr

/-- Modelled from the spec: the Block constructor (`block.js` is not under
`src/`) stores the payload; `height` and `timestamp` are assigned at append time
(§3), and `hash`/`previousHash` start as the null sentinel. -/
def Block.new (body : Body) : Block :=
  { height := 0, time := 0, previousBlockHash := .nullTok, body := body,
    hash := .nullTok }

/-- `SHA256(JSON.stringify(block))` as used by `_addBlock`: the ideal digest of
the serialization of all of the block's fields, including the current value of
its `hash` field (which is still `null` when `_addBlock` seals the block). -/
def jsonStringifyDigest (b : Block) : HashTok :=
  .digest b.height b.time b.previousBlockHash b.body b.hash

/-- Modelled from the spec: `selfValidate()` (§4.1) recomputes the digest over
the block's content — all fields except the stored `hash`, i.e. with the `hash`
field at the null sentinel exactly as it was when the block was sealed — and
compares it with the stored `hash`.  It returns a boolean and does not raise on
mismatch, so as a promise it always fulfills. -/
def Block.validate (b : Block) : Bool :=
  b.hash = jsonStringifyDigest { b with hash := .nullTok }

/-- Modelled from the spec: `getBData()` / `decodePayload()` (§4.1) decodes the
stored blob back to structured form; it is pure, and the Ledger controls the
encoding so decoding a stored block cannot fail. -/
def Block.getBData (b : Block) : Body :=
  b.body

/-- The Ledger state: `this.chain = []` and `this.height = -1` at construction
(`constructor`, blockchain.js lines 26-30). -/
structure Blockchain where
  chain : List Block
  height : Int
deriving DecidableEq, Repr

/-- `getChainHeight()` (lines 47-51): resolves with `this.height`, touching no
state.  Embedded as a state transformer so the frame property is expressible. -/
def getChainHeight (s : Blockchain) : Int × Blockchain :=
  (s.height, s)

/-- `_addBlock(block)` (lines 65-88): reads the chain height, assigns
`block.height = chainHeight + 1`, assigns `block.previousBlockHash` from the
last block when `chainHeight > -1`, stamps the time, computes
`block.hash = SHA256(JSON.stringify(block))`, pushes the block and increments
the cached height.  Returns the new state and the sealed block.  The indexing
`self.chain[chainHeight]` is total in the source's reachable states (the cached
height is `length - 1`); out of range it yields the null token here. -/
def _addBlock (now : Nat) (s : Blockchain) (block : Block) : Blockchain × Block :=
  let chainHeight : Int := (getChainHeight s).1
  let b1 : Block := { block with height := chainHeight + 1 }
  let b2 : Block :=
    if chainHeight > -1 then
      { b1 with previousBlockHash :=
          match s.chain[chainHeight.toNat]? with
          | some prevBlock => prevBlock.hash
          | none => HashTok.nullTok }
    else b1
  let b3 : Block := { b2 with time := now }
  let sealed : Block := { b3 with hash := jsonStringifyDigest b3 }
  ({ chain := s.chain ++ [sealed], height := s.height + 1 }, sealed)

/-- `initializeChain()` (lines 37-42): if `this.height === -1`, append a genesis
block built from `\x7bdata: 'Genesis Block'\x7d` through `_addBlock`. -/
def initializeChain (now : Nat) (s : Blockchain) : Blockchain :=
  if s.height = -1 then
    (_addBlock now s (Block.new (.dataOnly "Genesis Block"))).1
  else s

/-- The constructor (lines 26-30): empty chain, height -1, then
`initializeChain()`. -/
def Blockchain.new (now : Nat) : Blockchain :=
  initializeChain now { chain := [], height := -1 }

/-- `requestMessageOwnershipVerification(address)` (lines 98-106): the challenge
message `"<address>:<nowSeconds>:starRegistry"`. -/
def requestMessageOwnershipVerification (now : Nat) (address : String) : String :=
  address ++ ":" ++ toString now ++ ":" ++ "starRegistry"

/-- `String.prototype.split(':')` on the message, as a structural recursion over
the characters: splitting an empty string yields one empty segment, exactly as
in JavaScript. -/
def splitOnColonChars : List Char → List (List Char)
  | [] => [[]]
  | c :: cs =>
    match splitOnColonChars cs, decide (c = ':') with
    | rest, true => [] :: rest
    | [], false => [[c]]
    | r :: rs, false => (c :: r) :: rs

/-- `message.split(':')` (line 129). -/
def splitOnColon (s : String) : List String :=
  (splitOnColonChars s.toList).map (fun cs => String.mk cs)

/-- `parseInt` applied to an optional string (`message.split(':')[1]` may be
`undefined`): `none` models `NaN`.  `parseInt` reads an optional sign followed
by the longest digit prefix and is `NaN` when no digit is found or the argument
is `undefined`. -/
def parseIntJS (s : Option String) : Option Int :=
  match s with
  | none => none
  | some str =>
    let signed : Bool × List Char :=
      match str.toList with
      | '-' :: rest => (true, rest)
      | '+' :: rest => (false, rest)
      | cs => (false, cs)
    let digits := signed.2.takeWhile Char.isDigit
    if digits = [] then none
    else
      let n : Nat := digits.foldl (fun acc c => 10 * acc + (c.toNat - '0'.toNat)) 0
      some (if signed.1 then -(n : Int) else (n : Int))

/-- The freshness test `(currentTime - messageTime) < (60 * 5)` (line 136).
When `messageTime` is `NaN` the JavaScript comparison is false. -/
def withinWindow (currentTime : Int) (messageTime : Option Int) : Bool :=
  match messageTime with
  | none => false
  | some t => decide (currentTime - t < 60 * 5)

/-- Outcome of `submitStar`: the promise resolves with the added block or
rejects with a message string ("Signature not verified" is the spec's
`InvalidSignature`; "Validation older than 5 minutes" is the spec's
`ExpiredChallenge`; a string thrown by the verification capability is the
spec's `VerificationError`). -/
inductive SubmitResult where
  | ok (block : Block) : SubmitResult
  | rejected (message : String) : SubmitResult
deriving DecidableEq, Repr

/-- `submitStar(address, message, signature, star)` (lines 125-156).  The
signature capability is the explicit `verify` parameter (it is awaited before
the freshness branch; a thrown error is caught and rejects with its message).
On the success path the block is built from `\x7baddress, message, signature,
star\x7d` and appended through `_addBlock`. -/
def submitStar (verify : String → String → String → Except String Bool)
    (now : Nat) (s : Blockchain)
    (address message signature star : String) : SubmitResult × Blockchain :=
  let messageTime : Option Int := parseIntJS (splitOnColon message)[1]?
  let currentTime : Int := (now : Int)
  match verify message address signature with
  | .error err => (.rejected err, s)
  | .ok verified =>
    if withinWindow currentTime messageTime then
      if verified then
        (.ok (_addBlock now s (Block.new (.claim address message signature star))).2,
         (_addBlock now s (Block.new (.claim address message signature star))).1)
      else (.rejected "Signature not verified", s)
    else (.rejected "Validation older than 5 minutes", s)

/-- `getBlockByHash(hash)` (lines 164-175): `Array.prototype.find` over the
chain; resolves with the first block whose `hash` equals the argument, or with
`null` (here `none`).  Embedded as a state transformer for the frame claim. -/
def getBlockByHash (s : Blockchain) (hash : HashTok) : Option Block × Blockchain :=
  (s.chain.find? (fun block => block.hash = hash), s)

/-- `getBlockByHeight(height)` (lines 182-193): `filter(p => p.height ===
height)[0]`, resolving with the block or `null`. -/
def getBlockByHeight (s : Blockchain) (height : Int) : Option Block × Blockchain :=
  ((s.chain.filter (fun p => p.height = height)).head?, s)

/-- One collected entry `\x7bowner: address, star: body.star\x7d` pushed by
`getStarsByWalletAddress`. -/
structure StarEntry where
  owner : String
  star : String
deriving DecidableEq, Repr

/-- The predicate value `Array.prototype.filter` actually sees in
`getStarsByWalletAddress` (lines 206-218): the callback's body only starts the
asynchronous decode and has no return statement, so the filter receives
`undefined` — falsy — for every block. -/
def starsFilterSeen (block : Block) : Bool :=
  false

/-- The contents of the `stars` array at the instant `resolve(stars)` executes
(line 219): `stars` has just been reassigned to `self.chain.filter(...)`, whose
callback returns `undefined` for every block, so no block is kept.  None of the
queued `getBData` continuations has run yet. -/
def getStarsResolvedValue (s : Blockchain) (address : String) : List Block :=
  s.chain.filter (fun block => starsFilterSeen block)

/-- The contents of the same array after all the queued `getBData`
continuations have run (they were queued in chain order while the filter
iterated): each pushes `\x7bowner: address, star: body.star\x7d` when the
decoded body's `address` equals the argument; a plain data body has an
`undefined` `address` field, which never equals a string argument. -/
def getStarsAfterDrain (s : Blockchain) (address : String) : List StarEntry :=
  s.chain.foldl (fun acc block =>
    match Block.getBData block with
    | .dataOnly _ => acc
    | .claim a _ _ st =>
        if a = address then acc ++ [{ owner := address, star := st }] else acc) []

/-- `getStarsByWalletAddress(address)` (lines 201-221): the promise resolves
with the `stars` array as it stands when `resolve` runs, and the deferred
decode continuations later mutate that same array; both moments are recorded. -/
def getStarsByWalletAddress (s : Blockchain) (address : String) :
    List Block × List StarEntry :=
  (getStarsResolvedValue s address, getStarsAfterDrain s address)

/-- Modelled from the spec (§4.2): `collectClaimsByAddress(address)` scans all
blocks, decodes every payload, completes all decodes, and only then collects
one entry `\x7bowner: address, star\x7d` for every block whose decoded address
equals the argument — decode-then-filter, fully materialized before the caller
observes it. -/
def collectClaimsByAddress (s : Blockchain) (address : String) : List StarEntry :=
  s.chain.foldl (fun acc block =>
    match Block.getBData block with
    | .dataOnly _ => acc
    | .claim a _ _ st =>
        if a = address then acc ++ [{ owner := address, star := st }] else acc) []

/-- An entry of `validateChain`'s `errorLog`: the block together with which of
the two messages was recorded ("Block validation fails" for a failed
self-validation, "previous hash does not match" for a linkage mismatch). -/
inductive ValidationErr where
  | blockValidationFails (block : Block) : ValidationErr
  | prevHashMismatch (block : Block) : ValidationErr
deriving DecidableEq, Repr

/-- The deferred continuation attached to `block.validate()` for one block
(lines 238-250), acting on the shared `previousBlockHash` accumulator and
`errorLog`.  `Block.validate` is a promise that always fulfills (it returns a
boolean and never rejects), so the fulfilled handler runs — it ignores the
boolean — and the rejection handler that would record "Block validation fails"
is dead on this model.  On a linkage match the accumulator advances to the
block's own hash; on a mismatch an error is pushed and the accumulator is left
unchanged. -/
def validateChainStep (st : HashTok × List ValidationErr) (block : Block) :
    HashTok × List ValidationErr :=
  if st.1 = block.previousBlockHash then
    (block.hash, st.2)
  else
    (st.1, st.2 ++ [.prevHashMismatch block])

/-- `validateChain()` (lines 229-259).  The executor's `for` loop only attaches
`.then` continuations — none runs before the loop and the final length check,
which therefore always inspects the initial empty `errorLog` and resolves.  The
first component is the promise's outcome as decided at that instant (`ok` for
resolve, `error log` for `reject(errorLog)`); the second is the `errorLog`
after the queued continuations have all run, in chain order. -/
def validateChain (s : Blockchain) :
    (Except (List ValidationErr) Unit) × List ValidationErr :=
  let errorLogAtCheck : List ValidationErr := []
  let drained := (s.chain.foldl validateChainStep (.nullTok, errorLogAtCheck)).2
  (if errorLogAtCheck.length = 0 then .ok () else .error errorLogAtCheck, drained)

/-- Modelled from the spec (§4.2): `validateChain` walks the chain in height
order with an `expectedPreviousHash` accumulator starting at the genesis
sentinel; for each block it records a self-validation failure and a
previous-hash mismatch as applicable, and regardless of match or mismatch
re-synchronizes the expectation to the block's own hash; it returns the full
list of error records, an empty list meaning the chain is valid. -/
def validateChainSpecModel (s : Blockchain) : List ValidationErr :=
  (s.chain.foldl (fun (st : HashTok × List ValidationErr) block =>
    let log1 := if Block.validate block then st.2
                else st.2 ++ [.blockValidationFails block]
    let log2 := if block.previousBlockHash = st.1 then log1
                else log1 ++ [.prevHashMismatch block]
    (block.hash, log2)) (.nullTok, [])).2

/-- The height/linkage invariant of claim C3: the cached height equals the
chain length minus one, every block's `height` equals its index, every block's
`previousBlockHash` equals its predecessor's `hash`, and the genesis block has
height 0 and the null previous hash. -/
def HeightLinkInvariant (s : Blockchain) : Prop :=
  s.height = (s.chain.length : Int) - 1 ∧
  (∀ i : Nat, ∀ b : Block, s.chain[i]? = some b → b.height = (i : Int)) ∧
  (∀ i : Nat, ∀ b b' : Block, s.chain[i]? = some b → s.chain[i + 1]? = some b' →
      b'.previousBlockHash = b.hash) ∧
  (∀ b : Block, s.chain[0]? = some b →
      b.height = 0 ∧ b.previousBlockHash = HashTok.nullTok)

/-- Every stored block's `hash` is the digest of its serialized content with
the `hash` field excluded (held at the null sentinel, its value when the block
was sealed). -/
def SealedInvariant (s : Blockchain) : Prop :=
  ∀ b ∈ s.chain, b.hash = jsonStringifyDigest { b with hash := HashTok.nullTok }

/-- Ledger states produced by the source's only mutation path: construction
(which appends the genesis block) followed by any number of appends of freshly
constructed blocks, which is how `initializeChain` and `submitStar` call
`_addBlock`. -/
inductive Reachable : Blockchain → Prop where
  | init (now : Nat) : Reachable (Blockchain.new now)
  | add (now : Nat) (body : Body) (s : Blockchain) :
      Reachable s → Reachable (_addBlock now s (Block.new body)).1

/-- A freshly initialized chain's genesis block with its `body` field mutated
after sealing (tampering with a sealed block). -/
def tamperedGenesisBlock : Block :=
  match (Blockchain.new 100).chain with
  | b :: _ => { b with body := .claim "X" "m" "sig" "st" }
  | [] => Block.new (.dataOnly "Genesis Block")

/-- The chain of `Blockchain.new 100` after its genesis block was mutated in
place. -/
def tamperedGenesisChain : Blockchain :=
  { chain := [tamperedGenesisBlock], height := 0 }

/-- A chain holding exactly one claim block, owned by address "A", built
through the real submission path. -/
def oneClaimChain : Blockchain :=
  (submitStar (fun _ _ _ => Except.ok true) 110 (Blockchain.new 100)
      "A" "A:100:starRegistry" "sigA" "starA").2

/-- A three-block chain built through the append path. -/
def threeBlockChain : Blockchain :=
  (_addBlock 30
    ((_addBlock 20 (Blockchain.new 10)
        (Block.new (.claim "A" "mA" "sA" "stA"))).1)
    (Block.new (.claim "B" "mB" "sB" "stB"))).1

/-- `threeBlockChain` after the block at height 1 had its `previousBlockHash`
mutated, breaking exactly one link; the stored hashes and the block at height 2
(still correctly linked to the stored hash of block 1) are untouched. -/
def brokenLinkChain : Blockchain :=
  { threeBlockChain with
    chain := threeBlockChain.chain.map (fun b =>
      if b.height = 1 then { b with previousBlockHash := HashTok.nullTok } else b) }

/-- A sealed-looking genesis block for concrete linkage experiments. -/
def wb0 : Block :=
  { height := 0, time := 0, previousBlockHash := .nullTok,
    body := .dataOnly "g", hash := .digest 0 0 .nullTok (.dataOnly "g") .nullTok }

/-- A block whose link to `wb0` is broken (null previous hash). -/
def wb1 : Block :=
  { height := 1, time := 1, previousBlockHash := .nullTok,
    body := .dataOnly "a", hash := .digest 1 1 .nullTok (.dataOnly "a") .nullTok }

/-- A block correctly linked to `wb1`. -/
def wb2 : Block :=
  { height := 2, time := 2, previousBlockHash := wb1.hash,
    body := .dataOnly "b", hash := .digest 2 2 wb1.hash (.dataOnly "b") .nullTok }

/-- Indexing into a list with one element appended: the old entries below the
old length, the new element at the old length, nothing above. -/
theorem getElem?_append_single {α : Type} (l : List α) (a : α) (i : Nat) :
    (l ++ [a])[i]? =
      if i < l.length then l[i]? else if i = l.length then some a else none := by
  rcases Nat.lt_trichotomy i l.length with hlt | heq | hgt
  · rw [List.getElem?_append_left hlt, if_pos hlt]
  · subst heq
    rw [List.getElem?_concat_length, if_neg (lt_irrefl _), if_pos rfl]
  · have hlen : (l ++ [a]).length ≤ i := by
      simp only [List.length_append, List.length_cons, List.length_nil]
      omega
    rw [if_neg (by omega), if_neg (by omega), List.getElem?_eq_none hlen]

/-- The state after `_addBlock` is the old chain with the sealed block pushed
and the cached height incremented. -/
theorem addBlock_state (now : Nat) (s : Blockchain) (block : Block) :
    (_addBlock now s block).1 =
      { chain := s.chain ++ [(_addBlock now s block).2], height := s.height + 1 } :=
  rfl

/-- The sealed block's height is the incremented chain height. -/
theorem addBlock_height_eq (now : Nat) (s : Blockchain) (block : Block) :
    ((_addBlock now s block).2).height = s.height + 1 := by
  simp only [_addBlock, getChainHeight]
  split <;> rfl

/-- The sealed block's time stamp is the append-time clock value. -/
theorem addBlock_time_eq (now : Nat) (s : Blockchain) (block : Block) :
    ((_addBlock now s block).2).time = now := by
  simp only [_addBlock, getChainHeight]

/-- Appending to the empty chain leaves the candidate's previous hash (the
constructor's null sentinel) untouched. -/
theorem addBlock_prev_empty (now : Nat) (s : Blockchain) (block : Block)
    (h : s.height = -1) :
    ((_addBlock now s block).2).previousBlockHash = block.previousBlockHash := by
  simp [_addBlock, getChainHeight, h]

/-- Appending to a non-empty chain links the sealed block to the hash of the
block the cached height points at. -/
theorem addBlock_prev_nonempty (now : Nat) (s : Blockchain) (block lastB : Block)
    (h0 : 0 ≤ s.height) (hlast : s.chain[s.height.toNat]? = some lastB) :
    ((_addBlock now s block).2).previousBlockHash = lastB.hash := by
  have hgt : s.height > -1 := by omega
  simp [_addBlock, getChainHeight, hgt, hlast]

/-- A block sealed from a candidate whose `hash` field still holds the null
sentinel stores exactly the digest of its own content with the hash field at
the null sentinel. -/
theorem addBlock_hash_spec (now : Nat) (s : Blockchain) (block : Block)
    (h : block.hash = HashTok.nullTok) :
    ((_addBlock now s block).2).hash =
      jsonStringifyDigest { (_addBlock now s block).2 with hash := HashTok.nullTok } := by
  simp only [_addBlock, getChainHeight, jsonStringifyDigest]
  split <;> simp [h]

/-- One append through `_addBlock` of a freshly constructed block preserves the
height/linkage invariant and the sealed-hash invariant. -/
theorem inv_preserved (now : Nat) (body : Body) (s : Blockchain)
    (h : HeightLinkInvariant s ∧ SealedInvariant s) :
    HeightLinkInvariant (_addBlock now s (Block.new body)).1 ∧
    SealedInvariant (_addBlock now s (Block.new body)).1 := by
  obtain ⟨⟨hh, hht, hlink, hgen⟩, hseal⟩ := h
  have hchain : (_addBlock now s (Block.new body)).1.chain =
      s.chain ++ [(_addBlock now s (Block.new body)).2] := rfl
  have hheight : (_addBlock now s (Block.new body)).1.height = s.height + 1 := rfl
  have hsh : ((_addBlock now s (Block.new body)).2).height = s.height + 1 :=
    addBlock_height_eq now s (Block.new body)
  constructor
  · refine ⟨?_, ?_, ?_, ?_⟩
    · rw [hheight, hchain]
      simp only [List.length_append, List.length_cons, List.length_nil]
      omega
    · intro i b hib
      rw [hchain, getElem?_append_single] at hib
      by_cases h1 : i < s.chain.length
      · rw [if_pos h1] at hib
        exact hht i b hib
      · by_cases h2 : i = s.chain.length
        · rw [if_neg h1, if_pos h2] at hib
          have hb : b = (_addBlock now s (Block.new body)).2 :=
            (Option.some.inj hib).symm
          rw [hb, hsh, hh, h2]
          omega
        · rw [if_neg h1, if_neg h2] at hib
          exact absurd hib (by simp)
    · intro i b b' hib hib'
      rw [hchain, getElem?_append_single] at hib hib'
      by_cases h1 : i + 1 < s.chain.length
      · rw [if_pos (by omega)] at hib
        rw [if_pos h1] at hib'
        exact hlink i b b' hib hib'
      · by_cases h2 : i + 1 = s.chain.length
        · -- the new pair: b is the old last block, b' the sealed block
          rw [if_pos (by omega)] at hib
          rw [if_neg h1, if_pos h2] at hib'
          have hb' : b' = (_addBlock now s (Block.new body)).2 :=
            (Option.some.inj hib').symm
          have h0 : 0 ≤ s.height := by omega
          have htn : s.height.toNat = i := by omega
          rw [hb']
          exact addBlock_prev_nonempty now s (Block.new body) b h0
            (by rw [htn]; exact hib)
        · rw [if_neg h1, if_neg h2] at hib'
          exact absurd hib' (by simp)
    · intro b h0b
      rw [hchain, getElem?_append_single] at h0b
      by_cases h1 : 0 < s.chain.length
      · rw [if_pos h1] at h0b
        exact hgen b h0b
      · -- the chain was empty: the sealed block is the genesis block
        rw [if_neg h1, if_pos (by omega)] at h0b
        have hb : b = (_addBlock now s (Block.new body)).2 :=
          (Option.some.inj h0b).symm
        have hempty : s.height = -1 := by omega
        constructor
        · rw [hb, hsh, hempty]
          decide
        · rw [hb, addBlock_prev_empty now s (Block.new body) hempty]
          rfl
  · intro b hb
    rw [hchain] at hb
    rcases List.mem_append.mp hb with hold | hnew
    · exact hseal b hold
    · have hb' : b = (_addBlock now s (Block.new body)).2 := by
        simpa using hnew
      rw [hb']
      exact addBlock_hash_spec now s (Block.new body) rfl

/-- The empty ledger state trivially satisfies both invariants. -/
theorem inv_empty :
    HeightLinkInvariant { chain := [], height := -1 } ∧
    SealedInvariant { chain := [], height := -1 } := by
  constructor
  · refine ⟨by simp, ?_, ?_, ?_⟩
    · intro i b hib
      simp at hib
    · intro i b b' hib hib'
      simp at hib
    · intro b hb
      simp at hb
  · intro b hb
    simp at hb

/-- Every reachable ledger state satisfies the height/linkage and sealed-hash
invariants. -/
theorem reachable_inv (s : Blockchain) (hs : Reachable s) :
    HeightLinkInvariant s ∧ SealedInvariant s := by
  induction hs with
  | init now =>
    have hnew : Blockchain.new now =
        (_addBlock now { chain := [], height := -1 }
          (Block.new (.dataOnly "Genesis Block"))).1 := by
      simp [Blockchain.new, initializeChain]
    rw [hnew]
    exact inv_preserved now _ _ inv_empty
  | add now body s hs ih =>
    exact inv_preserved now body s ih

/-- Claim C3: after every successful append (genesis initialization included),
every block's height equals its index, every non-genesis block's
previousBlockHash equals the previous block's hash, the genesis block has
height 0 and the null previous hash, and the cached height equals the chain
length minus one. -/
theorem appended_chain_linkage (s : Blockchain) (hs : Reachable s) :
    HeightLinkInvariant s :=
  (reachable_inv s hs).1

theorem appended_chain_linkage_witness : HeightLinkInvariant (Blockchain.new 7) :=
  appended_chain_linkage (Blockchain.new 7) (Reachable.init 7)

/-- Claim C9: every sealed block of a reachable chain stores exactly the digest
of the serialization of its content with the hash field excluded (at the null
sentinel), so re-serializing and re-digesting a sealed block's content
reproduces the stored hash exactly. -/
theorem sealed_hash_reproducible (s : Blockchain) (hs : Reachable s) :
    ∀ b ∈ s.chain, b.hash = jsonStringifyDigest { b with hash := HashTok.nullTok } :=
  (reachable_inv s hs).2

theorem sealed_hash_reproducible_witness :
    { height := 0, time := 7, previousBlockHash := HashTok.nullTok,
      body := Body.dataOnly "Genesis Block",
      hash := HashTok.digest 0 7 HashTok.nullTok (Body.dataOnly "Genesis Block")
        HashTok.nullTok : Block }.hash =
      jsonStringifyDigest
        { { height := 0, time := 7, previousBlockHash := HashTok.nullTok,
            body := Body.dataOnly "Genesis Block",
            hash := HashTok.digest 0 7 HashTok.nullTok
              (Body.dataOnly "Genesis Block") HashTok.nullTok : Block }
          with hash := HashTok.nullTok } :=
  sealed_hash_reproducible (Blockchain.new 7) (Reachable.init 7) _ (by decide)

/-- Claim C10: getChainHeight, getBlockByHash and getBlockByHeight resolve for
every argument and every state without modifying the chain array, the cached
height, or any field of any stored block — each returns the state it was given,
unchanged. -/
theorem read_operations_preserve_state (s : Blockchain) (h : HashTok) (ht : Int) :
    (getChainHeight s).2 = s ∧ (getBlockByHash s h).2 = s ∧
    (getBlockByHeight s ht).2 = s :=
  ⟨rfl, rfl, rfl⟩

/-- Claim C5: with a valid signature, a submission whose elapsed time
`now - messageTime` is exactly 299 seconds succeeds (the block is built from
the claim and appended through `_addBlock`), while one whose elapsed time is
exactly 300 seconds is rejected with the ExpiredChallenge rejection
"Validation older than 5 minutes" and the state is unchanged. -/
theorem submitStar_freshness_boundary
    (verify : String → String → String → Except String Bool)
    (s : Blockchain) (address message signature star : String) (mt : Int)
    (hv : verify message address signature = .ok true)
    (hp : parseIntJS (splitOnColon message)[1]? = some mt) :
    (∀ now : Nat, (now : Int) - mt = 299 →
      submitStar verify now s address message signature star =
        (.ok (_addBlock now s (Block.new (.claim address message signature star))).2,
         (_addBlock now s (Block.new (.claim address message signature star))).1)) ∧
    (∀ now : Nat, (now : Int) - mt = 300 →
      submitStar verify now s address message signature star =
        (.rejected "Validation older than 5 minutes", s)) := by
  constructor
  · intro now hnow
    simp [submitStar, hv, hp, withinWindow]
    omega
  · intro now hnow
    simp [submitStar, hv, hp, withinWindow]
    omega

theorem submitStar_freshness_boundary_witness :
    submitStar (fun _ _ _ => Except.ok true) 399 (Blockchain.new 0)
        "A" "A:100:starRegistry" "sig" "star" =
      (.ok (_addBlock 399 (Blockchain.new 0)
          (Block.new (.claim "A" "A:100:starRegistry" "sig" "star"))).2,
       (_addBlock 399 (Blockchain.new 0)
          (Block.new (.claim "A" "A:100:starRegistry" "sig" "star"))).1) :=
  (submitStar_freshness_boundary (fun _ _ _ => Except.ok true) (Blockchain.new 0)
      "A" "A:100:starRegistry" "sig" "star" 100 rfl (by decide)).1 399 (by decide)

/-- Claim C6: a submission that is both expired (elapsed at least 300 seconds)
and whose signature verification returns false is rejected with the
ExpiredChallenge rejection "Validation older than 5 minutes": the freshness
branch is taken before the verification result is consulted. -/
theorem submitStar_expired_wins_over_bad_signature
    (verify : String → String → String → Except String Bool)
    (s : Blockchain) (address message signature star : String)
    (mt : Int) (now : Nat)
    (hv : verify message address signature = .ok false)
    (hp : parseIntJS (splitOnColon message)[1]? = some mt)
    (hold : 300 ≤ (now : Int) - mt) :
    submitStar verify now s address message signature star =
      (.rejected "Validation older than 5 minutes", s) := by
  simp [submitStar, hv, hp, withinWindow]
  omega

theorem submitStar_expired_wins_over_bad_signature_witness :
    submitStar (fun _ _ _ => Except.ok false) 400 (Blockchain.new 0)
        "A" "A:100:starRegistry" "sig" "star" =
      (.rejected "Validation older than 5 minutes", Blockchain.new 0) :=
  submitStar_expired_wins_over_bad_signature (fun _ _ _ => Except.ok false)
    (Blockchain.new 0) "A" "A:100:starRegistry" "sig" "star" 100 400 rfl
    (by decide) (by decide)

/-- Claim C7: a fresh submission whose signature verification returns false is
rejected with the InvalidSignature rejection "Signature not verified" and the
ledger is unchanged: no block is appended and the height does not change. -/
theorem submitStar_bad_signature_rejected
    (verify : String → String → String → Except String Bool)
    (s : Blockchain) (address message signature star : String)
    (mt : Int) (now : Nat)
    (hv : verify message address signature = .ok false)
    (hp : parseIntJS (splitOnColon message)[1]? = some mt)
    (hfresh : (now : Int) - mt < 300) :
    submitStar verify now s address message signature star =
      (.rejected "Signature not verified", s) := by
  simp [submitStar, hv, hp, withinWindow]
  omega

theorem submitStar_bad_signature_rejected_witness :
    submitStar (fun _ _ _ => Except.ok false) 110 (Blockchain.new 0)
        "A" "A:100:starRegistry" "sig" "star" =
      (.rejected "Signature not verified", Blockchain.new 0) :=
  submitStar_bad_signature_rejected (fun _ _ _ => Except.ok false)
    (Blockchain.new 0) "A" "A:100:starRegistry" "sig" "star" 100 110 rfl
    (by decide) (by decide)

/-- Claim C8 as stated is false on the code: a message with no second
colon-delimited segment is rejected with the very same "Validation older than 5
minutes" rejection (the spec's ExpiredChallenge) that a well-formed but expired
submission receives — `submitStar` has no malformed-message failure at all. -/
theorem submitStar_malformed_message_counterexample :
    (submitStar (fun _ _ _ => Except.ok true) 1000 (Blockchain.new 0)
        "A" "justanaddress" "sig" "star").1 =
      SubmitResult.rejected "Validation older than 5 minutes" ∧
    (submitStar (fun _ _ _ => Except.ok true) 1000 (Blockchain.new 0)
        "A" "A:400:starRegistry" "sig" "star").1 =
      SubmitResult.rejected "Validation older than 5 minutes" := by
  decide

/-- Claim C8 (amended): for every message whose second colon-delimited segment
is absent or non-numeric (`parseInt` yields NaN), and whose verification call
returns a boolean, submitStar rejects — but with the ExpiredChallenge rejection
"Validation older than 5 minutes" (the NaN freshness comparison is false), not
with a dedicated MalformedMessage error — and the ledger is unchanged. -/
theorem submitStar_malformed_message_rejected_as_expired
    (verify : String → String → String → Except String Bool)
    (s : Blockchain) (address message signature star : String)
    (now : Nat) (v : Bool)
    (hv : verify message address signature = .ok v)
    (hp : parseIntJS (splitOnColon message)[1]? = none) :
    submitStar verify now s address message signature star =
      (.rejected "Validation older than 5 minutes", s) := by
  simp [submitStar, hv, hp, withinWindow]

theorem submitStar_malformed_message_rejected_as_expired_witness :
    submitStar (fun _ _ _ => Except.ok true) 5 (Blockchain.new 0)
        "A" "justanaddress" "sig" "star" =
      (.rejected "Validation older than 5 minutes", Blockchain.new 0) :=
  submitStar_malformed_message_rejected_as_expired (fun _ _ _ => Except.ok true)
    (Blockchain.new 0) "A" "justanaddress" "sig" "star" 5 true rfl (by decide)

/-- Claim C1 is violated by the code: on a chain whose sealed genesis block had
its body mutated afterwards, validateChain still resolves successfully — the
executor inspects errorLog before any queued per-block continuation has run, so
it always sees the initial empty log — and even the eventually drained log
records nothing (the self-validation boolean is never consulted), while the
spec's validateChain reports the tampered block. -/
theorem validateChain_reports_nothing_on_tampered_block :
    (validateChain tamperedGenesisChain).1 = Except.ok () ∧
    (validateChain tamperedGenesisChain).2 = [] ∧
    Block.validate tamperedGenesisBlock = false ∧
    validateChainSpecModel tamperedGenesisChain =
      [ValidationErr.blockValidationFails tamperedGenesisBlock] :=
  ⟨rfl, by decide, by decide, by decide⟩

/-- Claim C2 is violated by the code: getStarsByWalletAddress resolves the
stars array before any decode continuation has run — at that instant the array
(the result of filtering with a callback that returns undefined) is empty even
though the chain holds exactly one claim block for "A"; the entries are pushed
into the already-resolved array only afterwards.  The spec's
collectClaimsByAddress returns exactly one entry for "A" and none for "B". -/
theorem getStars_resolves_before_decoding :
    (getStarsByWalletAddress oneClaimChain "A").1 = [] ∧
    (getStarsByWalletAddress oneClaimChain "A").2 =
      [{ owner := "A", star := "starA" }] ∧
    collectClaimsByAddress oneClaimChain "A" = [{ owner := "A", star := "starA" }] ∧
    collectClaimsByAddress oneClaimChain "B" = [] := by
  decide

/-- Claim C4 is false on the code: with a single broken link at height 1, the
drained errorLog flags both the broken block and the block at height 2 — which
is still correctly linked to the stored hash of its predecessor — because the
expectation accumulator is not re-synchronized after a mismatch. -/
theorem validateChain_broken_link_cascades :
    ((validateChain brokenLinkChain).2).length = 2 ∧
    (brokenLinkChain.chain[2]?).map Block.previousBlockHash =
      (brokenLinkChain.chain[1]?).map Block.hash ∧
    ((validateChain brokenLinkChain).2)[1]? =
      (brokenLinkChain.chain[2]?).map ValidationErr.prevHashMismatch := by
  decide

/-- Claim C4 (amended): after comparing a block's previousBlockHash against the
expected previous hash, the expectation is set to the block's own hash only on
a match; on a mismatch it is left unchanged, so a single broken link is
reported both at the broken block and again at the next correctly linked
block. -/
theorem validateChain_mismatch_keeps_expectation
    (b0 b1 b2 : Block)
    (h0 : b0.previousBlockHash = HashTok.nullTok)
    (h1 : b1.previousBlockHash ≠ b0.hash)
    (h2 : b2.previousBlockHash = b1.hash)
    (h3 : b1.hash ≠ b0.hash) :
    (validateChain { chain := [b0, b1, b2], height := 2 }).2 =
      [.prevHashMismatch b1, .prevHashMismatch b2] := by
  have s0 : validateChainStep (HashTok.nullTok, ([] : List ValidationErr)) b0 =
      (b0.hash, []) := by
    unfold validateChainStep
    rw [if_pos h0.symm]
  have s1 : validateChainStep (b0.hash, ([] : List ValidationErr)) b1 =
      (b0.hash, [.prevHashMismatch b1]) := by
    unfold validateChainStep
    rw [if_neg (fun hc => h1 hc.symm)]
    rfl
  have s2 : validateChainStep (b0.hash, [ValidationErr.prevHashMismatch b1]) b2 =
      (b0.hash, [.prevHashMismatch b1, .prevHashMismatch b2]) := by
    unfold validateChainStep
    rw [if_neg (fun hc => h3 (by rw [h2] at hc; exact hc.symm))]
    rfl
  simp [validateChain, List.foldl, s0, s1, s2]

theorem validateChain_mismatch_keeps_expectation_witness :
    (validateChain { chain := [wb0, wb1, wb2], height := 2 }).2 =
      [.prevHashMismatch wb1, .prevHashMismatch wb2] :=
  validateChain_mismatch_keeps_expectation wb0 wb1 wb2
    (by decide) (by decide) (by decide) (by decide)

end StarChain
